import Mathlib

/-!
Verification of the adaptive coaching-prompt subsystem of the `zeb`
productivity assistant.

The Python source is embedded shallowly:

* Python strings that undergo substring tests, lower-casing or splicing are
  modelled as `List Char`; strings that are only stored or compared for
  equality stay `String`.
* Python's `datetime.now().isoformat()` is passed in explicitly as a
  `String` timestamp parameter.
* The prompt-version dictionary (`PromptBuilder.prompt_versions`, a Python
  `dict[int, entry]` that is only ever extended with a fresh maximal key)
  is modelled as an insertion-ordered association list
  `List (Nat × VersionEntry)`.
* Methods that can raise (`max()` of an empty sequence, explicit
  `raise ValueError`) return `Except PromptError _`; an `Except.error`
  result corresponds to a Python exception thrown before any state
  mutation, so the store is unchanged in that case.
* Floating-point arithmetic in the analysis code is modelled with exact
  rationals (`ℚ`).
-/

/-- Shorthand: view a string literal as the character list our model uses. -/
def ls (s : String) : List Char := s.toList

/-- Python's `str.lower()` (ASCII behaviour, which is all the source relies on). -/
def lower (s : List Char) : List Char := s.map Char.toLower

/-- Python's substring test `pat in s` on strings, modelled on character
lists: `true` iff `pat` occurs contiguously in `s` (the empty pattern
occurs in every string, as in Python). -/
def containsSub (s pat : List Char) : Bool :=
  pat.isPrefixOf s ||
    match s with
    | [] => false
    | _ :: rest => containsSub rest pat

/-- One scan step of Python's `s.replace(pat, "")`: delete every
(left-to-right, non-overlapping) occurrence of `pat`.  For `pat = ""`
Python's `replace` with an empty replacement returns `s` unchanged, which
the `!pat.isEmpty` guard reproduces. -/
def deleteOcc (pat : List Char) : List Char → List Char
  | [] => []
  | c :: rest =>
    if pat.isPrefixOf (c :: rest) && !pat.isEmpty then
      deleteOcc pat ((c :: rest).drop pat.length)
    else
      c :: deleteOcc pat rest
termination_by s => s.length
decreasing_by
  · simp only [List.length_drop, List.length_cons]
    have hne : pat ≠ [] := by
      rename_i h
      intro hc
      rw [hc] at h
      simp at h
    have : 1 ≤ pat.length := by
      cases pat with
      | nil => exact absurd rfl hne
      | cons _ _ => simp
    omega
  · simp

/-- If `pat` does not occur in `s` (and hence `pat ≠ []`), deleting its
occurrences is the identity. -/
theorem deleteOcc_of_not_contains (pat s : List Char)
    (h : containsSub s pat = false) : deleteOcc pat s = s := by
  induction s with
  | nil => simp [deleteOcc]
  | cons c rest ih =>
    rw [containsSub] at h
    simp only [Bool.or_eq_false_iff] at h
    rw [deleteOcc, if_neg, ih h.2]
    simp [h.1]

namespace PromptBuilder

/-- The `{"add": [...], "remove": [...]}` dictionaries inside a change-set
(`improvements["suggested_changes"][issue]` in the source). -/
structure SuggestedChange where
  add : List (List Char)
  remove : List (List Char)
deriving DecidableEq

/-- One per-category value of the change-set dictionary passed to
`update_system_prompt`: callers build
`{"current_score": float, "issues": [...], "suggested_changes": {...}}`. -/
structure Improvements where
  current_score : ℚ
  issues : List String
  suggested_changes : List (List Char × SuggestedChange)
deriving DecidableEq

/-- The whole change-set argument: an insertion-ordered dictionary keyed by
prompt category name. -/
abbrev ChangeSet := List (List Char × Improvements)

/-- The dynamically-typed `"changes"` field of a stored prompt version.
The source stores `{}` for the initial version, a
`{"type": "rollback", "from_version": N}` dictionary for rollbacks, and —
because the loop variable in `update_system_prompt` shadows the `changes`
parameter — either the full change-set argument or the last iterated
`{"add", "remove"}` dictionary for updates. -/
inductive Changes where
  | empty : Changes
  | rollbackOf (fromVersion : Nat) : Changes
  | changeSet (cs : ChangeSet) : Changes
  | suggested (sc : SuggestedChange) : Changes
deriving DecidableEq

/-- One stored prompt version: `{"prompt": ..., "timestamp": ..., "changes": ...}`. -/
structure VersionEntry where
  prompt : List Char
  timestamp : String
  changes : Changes
deriving DecidableEq

/-- `self.prompt_versions`: insertion-ordered map from version number to entry. -/
abbrev PromptVersions := List (Nat × VersionEntry)

/-- Python's `max(self.prompt_versions.keys())`, except that the model
returns `0` for an empty store (the call sites below surface the
`ValueError` Python raises there before using this value). -/
def maxKey (pv : PromptVersions) : Nat :=
  pv.foldl (fun m p => max m p.1) 0

/-- Dictionary lookup `self.prompt_versions[version]` / membership test. -/
def lookupVersion (pv : PromptVersions) (v : Nat) : Option VersionEntry :=
  (pv.find? (fun p => p.1 == v)).map (·.2)

/-- Errors raised by the store's methods (Python `ValueError`; the spec's
error taxonomy names the missing-version case `NotFoundError`). -/
inductive PromptError where
  | valueError (msg : String) : PromptError
deriving DecidableEq

/-- `get_current_system_prompt`: the `prompt` of the entry with the maximal
version key.  `none` models the `ValueError` that `max()` raises on an
empty store. -/
def get_current_system_prompt (pv : PromptVersions) : Option (List Char) :=
  if pv.isEmpty then none
  else (lookupVersion pv (maxKey pv)).map (·.prompt)

/-- The inner body of `update_system_prompt`'s loops for one
`{"add", "remove"}` dictionary: append each `add` string as a new line
unless it already occurs in the prompt, then delete every occurrence of
each `remove` string. -/
def applySC (np : List Char) (sc : SuggestedChange) : List Char :=
  let afterAdd :=
    sc.add.foldl (fun acc a => if containsSub acc a then acc else acc ++ '\n' :: a) np
  sc.remove.foldl (fun acc r => deleteOcc r acc) afterAdd

/-- The two nested loops of `update_system_prompt`.  The second component
tracks the final value of the Python variable `changes`, which the inner
loop `for issue, changes in improvements["suggested_changes"].items()`
rebinds: `none` means the inner loop never ran, so `changes` still names
the function argument. -/
def applyChangeSet (np : List Char) (cs : ChangeSet) :
    List Char × Option SuggestedChange :=
  cs.foldl
    (fun st item =>
      if containsSub st.1 item.1 then
        item.2.suggested_changes.foldl
          (fun st2 isc => (applySC st2.1 isc.2, some isc.2)) st
      else st)
    (np, none)

/-- What `update_system_prompt` stores under `"changes"`: the argument if
the shadowing inner loop never executed, otherwise the last
`{"add", "remove"}` dictionary it iterated. -/
def storedChanges (cs : ChangeSet) : Option SuggestedChange → Changes
  | none => Changes.changeSet cs
  | some sc => Changes.suggested sc

/-- `update_system_prompt(changes)`: read the current prompt (raising on an
empty store), apply the change-set, and append a new version keyed
`max(keys) + 1`. -/
def update_system_prompt (pv : PromptVersions) (ts : String) (cs : ChangeSet) :
    Except PromptError PromptVersions :=
  match get_current_system_prompt pv with
  | none => .error (.valueError "max() arg is an empty sequence")
  | some current =>
    let res := applyChangeSet current cs
    .ok (pv ++ [(maxKey pv + 1,
      { prompt := res.1, timestamp := ts, changes := storedChanges cs res.2 })])

/-- `rollback_prompt(version)`: raise `ValueError` if the version is not in
the history, else append a new version copying the target's text and
recording `{"type": "rollback", "from_version": version}`. -/
def rollback_prompt (pv : PromptVersions) (ts : String) (version : Nat) :
    Except PromptError PromptVersions :=
  match lookupVersion pv version with
  | none => .error (.valueError ("Version " ++ toString version ++ " does not exist"))
  | some target =>
    .ok (pv ++ [(maxKey pv + 1,
      { prompt := target.prompt, timestamp := ts, changes := .rollbackOf version })])

/-! Helper lemmas about `maxKey` and `lookupVersion`. -/

theorem le_foldl_max (l : List (Nat × VersionEntry)) (b : Nat) :
    b ≤ l.foldl (fun m p => max m p.1) b := by
  induction l generalizing b with
  | nil => exact le_refl b
  | cons x xs ih =>
    calc b ≤ max b x.1 := le_max_left _ _
    _ ≤ _ := ih (max b x.1)

theorem key_le_maxKey (pv : PromptVersions) (p : Nat × VersionEntry)
    (hp : p ∈ pv) : p.1 ≤ maxKey pv := by
  unfold maxKey
  generalize (0 : Nat) = b
  induction pv generalizing b with
  | nil => cases hp
  | cons x xs ih =>
    rcases List.mem_cons.mp hp with h | h
    · subst h
      calc p.1 ≤ max b p.1 := le_max_right _ _
      _ ≤ _ := le_foldl_max xs _
    · exact ih h _

theorem maxKey_append_single (pv : PromptVersions) (k : Nat) (e : VersionEntry) :
    maxKey (pv ++ [(k, e)]) = max (maxKey pv) k := by
  unfold maxKey
  rw [List.foldl_append]
  rfl

/-- Looking up the freshly appended key `maxKey pv + 1` finds the appended
entry (every existing key is strictly smaller). -/
theorem lookup_append_fresh (pv : PromptVersions) (e : VersionEntry) :
    lookupVersion (pv ++ [(maxKey pv + 1, e)]) (maxKey pv + 1) = some e := by
  unfold lookupVersion
  have hnone : pv.find? (fun p => p.1 == maxKey pv + 1) = none := by
    rw [List.find?_eq_none]
    intro p hp
    have := key_le_maxKey pv p hp
    simp only [beq_iff_eq]
    omega
  rw [List.find?_append, hnone]
  simp

/-- After appending the fresh entry, it is the current one. -/
theorem get_current_append_fresh (pv : PromptVersions) (e : VersionEntry) :
    get_current_system_prompt (pv ++ [(maxKey pv + 1, e)]) = some e.prompt := by
  unfold get_current_system_prompt
  rw [if_neg (by simp)]
  rw [maxKey_append_single, Nat.max_eq_right (Nat.le_succ _), lookup_append_fresh]
  rfl

/-! Idempotence helpers: a change-set whose additions are already present
and whose removals are absent leaves the prompt text unchanged. -/

theorem foldl_add_id (cur : List Char) (l : List (List Char))
    (h : ∀ a ∈ l, containsSub cur a = true) :
    l.foldl (fun acc a => if containsSub acc a then acc else acc ++ '\n' :: a) cur
      = cur := by
  induction l with
  | nil => rfl
  | cons x xs ih =>
    simp only [List.foldl_cons]
    rw [if_pos (h x (List.mem_cons_self x xs))]
    exact ih fun a ha => h a (List.mem_cons_of_mem x ha)

theorem foldl_remove_id (cur : List Char) (l : List (List Char))
    (h : ∀ r ∈ l, containsSub cur r = false) :
    l.foldl (fun acc r => deleteOcc r acc) cur = cur := by
  induction l with
  | nil => rfl
  | cons x xs ih =>
    simp only [List.foldl_cons]
    rw [deleteOcc_of_not_contains x cur (h x (List.mem_cons_self x xs))]
    exact ih fun r hr => h r (List.mem_cons_of_mem x hr)

theorem applySC_id (cur : List Char) (sc : SuggestedChange)
    (hadd : ∀ a ∈ sc.add, containsSub cur a = true)
    (hrem : ∀ r ∈ sc.remove, containsSub cur r = false) :
    applySC cur sc = cur := by
  unfold applySC
  rw [foldl_add_id cur sc.add hadd]
  exact foldl_remove_id cur sc.remove hrem

theorem foldl_inner_fst (cur : List Char)
    (l : List (List Char × SuggestedChange))
    (h : ∀ isc ∈ l, (∀ a ∈ isc.2.add, containsSub cur a = true) ∧
        (∀ r ∈ isc.2.remove, containsSub cur r = false)) :
    ∀ o : Option SuggestedChange,
      (l.foldl (fun st2 isc => (applySC st2.1 isc.2, some isc.2)) (cur, o)).1 = cur := by
  induction l with
  | nil => intro o; rfl
  | cons x xs ih =>
    intro o
    simp only [List.foldl_cons]
    have hx := h x (List.mem_cons_self x xs)
    rw [applySC_id cur x.2 hx.1 hx.2]
    exact ih (fun isc hisc => h isc (List.mem_cons_of_mem x hisc)) (some x.2)

theorem applyChangeSet_fst_id (cur : List Char) (cs : ChangeSet)
    (h : ∀ item ∈ cs, ∀ isc ∈ item.2.suggested_changes,
        (∀ a ∈ isc.2.add, containsSub cur a = true) ∧
        (∀ r ∈ isc.2.remove, containsSub cur r = false)) :
    (applyChangeSet cur cs).1 = cur := by
  unfold applyChangeSet
  suffices hgen : ∀ o : Option SuggestedChange,
      (cs.foldl
        (fun st item =>
          if containsSub st.1 item.1 then
            item.2.suggested_changes.foldl
              (fun st2 isc => (applySC st2.1 isc.2, some isc.2)) st
          else st)
        (cur, o)).1 = cur by
    exact hgen none
  induction cs with
  | nil => intro o; rfl
  | cons x xs ih =>
    intro o
    simp only [List.foldl_cons]
    by_cases hc : containsSub cur x.1 = true
    · rw [if_pos hc]
      have hfst := foldl_inner_fst cur x.2.suggested_changes
        (h x (List.mem_cons_self x xs)) o
      have hxs := ih (fun item hi => h item (List.mem_cons_of_mem x hi))
      -- the inner fold returns a pair whose first component is `cur`
      have hpair :
          x.2.suggested_changes.foldl
              (fun st2 isc => (applySC st2.1 isc.2, some isc.2)) (cur, o) =
            (cur, (x.2.suggested_changes.foldl
              (fun st2 isc => (applySC st2.1 isc.2, some isc.2)) (cur, o)).2) := by
        rw [Prod.ext_iff]
        exact ⟨hfst, rfl⟩
      rw [hpair]
      exact hxs _
    · rw [if_neg hc]
      exact ih (fun item hi => h item (List.mem_cons_of_mem x hi)) o

/-! Concrete sample data used by witnesses and counterexamples. -/

/-- Entry {prompt: "alpha", ...} of the sample store. -/
def sampleE1 : VersionEntry := { prompt := ls "alpha", timestamp := "t0", changes := .empty }

/-- Entry {prompt: "beta", ...} of the sample store. -/
def sampleE2 : VersionEntry := { prompt := ls "beta", timestamp := "t1", changes := .empty }

/-- A sample two-version store; its current prompt is `"beta"`. -/
def samplePV : PromptVersions := [(1, sampleE1), (2, sampleE2)]

/-- A change-set whose additions already occur in `"beta"` and whose
removals do not. -/
def sampleIdemCS : ChangeSet :=
  [(ls "bet",
    { current_score := 0.7, issues := ["clarity"],
      suggested_changes := [(ls "clarity", { add := [ls "eta"], remove := [ls "zz"] })] })]

/-- A change-set with one matching category and one (empty) suggested
change, enough to trigger the `changes` variable shadowing. -/
def sampleShadowCS : ChangeSet :=
  [(ls "bet",
    { current_score := 0.7, issues := ["clarity"],
      suggested_changes := [(ls "clarity", { add := [], remove := [] })] })]

end PromptBuilder

namespace PromptBuilder

/-- C1: for every store and every version `v` present in the history,
`rollback_prompt v` appends a version whose text equals version `v`'s text
and whose changes field is `{"type": "rollback", "from_version": v}`, and
`get_current_system_prompt` afterwards returns exactly that text. -/
theorem rollback_roundtrip (pv : PromptVersions) (ts : String) (v : Nat)
    (target : VersionEntry) (h : lookupVersion pv v = some target) :
    rollback_prompt pv ts v =
      .ok (pv ++ [(maxKey pv + 1,
        { prompt := target.prompt, timestamp := ts, changes := .rollbackOf v })]) ∧
    get_current_system_prompt
        (pv ++ [(maxKey pv + 1,
          { prompt := target.prompt, timestamp := ts, changes := .rollbackOf v })]) =
      some target.prompt := by
  constructor
  · unfold rollback_prompt
    rw [h]
  · exact get_current_append_fresh pv _

/-- Witness for C1 at the concrete two-version sample store, version 1. -/
theorem rollback_roundtrip_witness :
    lookupVersion samplePV 1 = some sampleE1 ∧
    (rollback_prompt samplePV "t2" 1 =
      .ok (samplePV ++ [(maxKey samplePV + 1,
        { prompt := sampleE1.prompt, timestamp := "t2", changes := .rollbackOf 1 })]) ∧
    get_current_system_prompt
        (samplePV ++ [(maxKey samplePV + 1,
          { prompt := sampleE1.prompt, timestamp := "t2", changes := .rollbackOf 1 })]) =
      some sampleE1.prompt) :=
  ⟨by decide, rollback_roundtrip samplePV "t2" 1 sampleE1 (by decide)⟩

/-- C2 (amended): on a store with a current prompt (the store as
initialized always contains version 1, so it is never empty) both
appending operations key the new entry `max(existing keys) + 1` and leave
every existing entry in place (the old store is a prefix of the new one,
so no historical entry is modified or removed), and the maximal version
grows by exactly 1 per append; on an empty store the operations raise
(see `append_empty_store_raises`) instead of assigning version 1. -/
theorem append_version_monotonic (pv : PromptVersions) (ts : String)
    (cs : ChangeSet) (v : Nat) (target : VersionEntry) (cur : List Char) :
    (get_current_system_prompt pv = some cur →
      update_system_prompt pv ts cs =
        .ok (pv ++ [(maxKey pv + 1,
          { prompt := (applyChangeSet cur cs).1, timestamp := ts,
            changes := storedChanges cs (applyChangeSet cur cs).2 })])) ∧
    (lookupVersion pv v = some target →
      rollback_prompt pv ts v =
        .ok (pv ++ [(maxKey pv + 1,
          { prompt := target.prompt, timestamp := ts, changes := .rollbackOf v })])) ∧
    (∀ e : VersionEntry, maxKey (pv ++ [(maxKey pv + 1, e)]) = maxKey pv + 1) := by
  refine ⟨?_, ?_, ?_⟩
  · intro h
    unfold update_system_prompt
    rw [h]
  · intro h
    unfold rollback_prompt
    rw [h]
  · intro e
    rw [maxKey_append_single, Nat.max_eq_right (Nat.le_succ _)]

/-- Witness for the amended C2 at the concrete sample store. -/
theorem append_version_monotonic_witness :
    get_current_system_prompt samplePV = some (ls "beta") ∧
    update_system_prompt samplePV "t2" sampleIdemCS =
      .ok (samplePV ++ [(maxKey samplePV + 1,
        { prompt := (applyChangeSet (ls "beta") sampleIdemCS).1, timestamp := "t2",
          changes := storedChanges sampleIdemCS
            (applyChangeSet (ls "beta") sampleIdemCS).2 })]) ∧
    lookupVersion samplePV 2 = some sampleE2 ∧
    rollback_prompt samplePV "t2" 2 =
      .ok (samplePV ++ [(maxKey samplePV + 1,
        { prompt := sampleE2.prompt, timestamp := "t2", changes := .rollbackOf 2 })]) ∧
    maxKey (samplePV ++ [(maxKey samplePV + 1, sampleE1)]) = maxKey samplePV + 1 :=
  ⟨by decide,
   (append_version_monotonic samplePV "t2" sampleIdemCS 2 sampleE2 (ls "beta")).1
     (by decide),
   by decide,
   (append_version_monotonic samplePV "t2" sampleIdemCS 2 sampleE2 (ls "beta")).2.1
     (by decide),
   (append_version_monotonic samplePV "t2" sampleIdemCS 2 sampleE2 (ls "beta")).2.2
     sampleE1⟩

/-- Counterexample to C2 as stated: on an empty store the append operation
raises `ValueError` (Python's `max()` of an empty sequence) instead of
assigning version 1. -/
theorem append_empty_store_raises :
    update_system_prompt [] "t" [] =
        .error (.valueError "max() arg is an empty sequence") ∧
    (update_system_prompt [] "t" []).isOk = false := by
  constructor <;> rfl

/-- C4: if every `"add"` string of the change-set already occurs in the
current prompt text and no `"remove"` string occurs in it, then
`update_system_prompt` appends a version whose text is character-for-character
the previous current text — only the version counter moves. -/
theorem update_idempotent (pv : PromptVersions) (ts : String) (cs : ChangeSet)
    (cur : List Char)
    (hcur : get_current_system_prompt pv = some cur)
    (h : ∀ item ∈ cs, ∀ isc ∈ item.2.suggested_changes,
        (∀ a ∈ isc.2.add, containsSub cur a = true) ∧
        (∀ r ∈ isc.2.remove, containsSub cur r = false)) :
    ∃ ch : Changes, update_system_prompt pv ts cs =
      .ok (pv ++ [(maxKey pv + 1,
        { prompt := cur, timestamp := ts, changes := ch })]) := by
  have step : update_system_prompt pv ts cs =
      .ok (pv ++ [(maxKey pv + 1,
        { prompt := (applyChangeSet cur cs).1, timestamp := ts,
          changes := storedChanges cs (applyChangeSet cur cs).2 })]) := by
    unfold update_system_prompt
    rw [hcur]
  rw [applyChangeSet_fst_id cur cs h] at step
  exact ⟨storedChanges cs (applyChangeSet cur cs).2, step⟩

/-- Witness for C4: applying `sampleIdemCS` (adds `"eta"`, removes `"zz"`)
on top of current prompt `"beta"` leaves the text unchanged. -/
theorem update_idempotent_witness :
    get_current_system_prompt samplePV = some (ls "beta") ∧
    (∀ item ∈ sampleIdemCS, ∀ isc ∈ item.2.suggested_changes,
        (∀ a ∈ isc.2.add, containsSub (ls "beta") a = true) ∧
        (∀ r ∈ isc.2.remove, containsSub (ls "beta") r = false)) ∧
    ∃ ch : Changes, update_system_prompt samplePV "t2" sampleIdemCS =
      .ok (samplePV ++ [(maxKey samplePV + 1,
        { prompt := ls "beta", timestamp := "t2", changes := ch })]) :=
  ⟨by decide, by decide,
   update_idempotent samplePV "t2" sampleIdemCS (ls "beta") (by decide) (by decide)⟩

/-- C5: rolling back to a version number absent from the history returns the
`ValueError` (the spec taxonomy's `NotFoundError`) to the caller; no new
version is appended — the raise happens before any mutation, so the store
is untouched. -/
theorem rollback_missing_version (pv : PromptVersions) (ts : String) (v : Nat)
    (h : lookupVersion pv v = none) :
    rollback_prompt pv ts v =
      .error (.valueError ("Version " ++ toString v ++ " does not exist")) := by
  unfold rollback_prompt
  rw [h]

/-- Witness for C5: version 7 is absent from the sample store. -/
theorem rollback_missing_version_witness :
    lookupVersion samplePV 7 = none ∧
    rollback_prompt samplePV "t9" 7 =
      .error (.valueError ("Version " ++ toString 7 ++ " does not exist")) :=
  ⟨by decide, rollback_missing_version samplePV "t9" 7 (by decide)⟩

end PromptBuilder

namespace ProductivityCoach

/-- A task record as `ContextManager._get_recent_tasks` shapes it, plus the
`"subtasks"` key that `_analyze_prompt_effectiveness` reads with
`task.get("subtasks", [])` (absent key modelled as `[]`). -/
structure TaskRec where
  id : String
  title : String
  status : String
  priority : String
  created_at : String
  subtasks : List (List Char)
deriving DecidableEq

/-- A journal-entry record (`id`, `type`, `content`, `mood`, `created_at`);
`mood` is optional because the analyzer reads it with
`entry.get("mood", "neutral")`. -/
structure JournalRec where
  id : String
  type : String
  content : List Char
  mood : Option String
  created_at : String
deriving DecidableEq

/-- A check-in record (`id`, `type`, `priorities`, `created_at`). -/
structure CheckInRec where
  id : List Char
  type : String
  priorities : List (List Char)
  created_at : List Char
deriving DecidableEq

/-- The slice of `ContextManager.get_recent_context`'s result that the
analysis functions read. -/
structure RecentContext where
  tasks : List TaskRec
  journal_entries : List JournalRec
  check_ins : List CheckInRec
deriving DecidableEq

/-- Python's `sep.join(...)` on character lists. -/
def pyJoin (sep : List Char) : List (List Char) → List Char
  | [] => []
  | [x] => x
  | x :: y :: xs => x ++ sep ++ pyJoin sep (y :: xs)

/-- Python's `repr` of a plain string as it appears inside `str(list)`:
single quotes around the content (escaping is not modelled; none of the
analysed fields contain quotes or backslashes). -/
def pyReprStr (s : List Char) : List Char := '\'' :: (s ++ ['\''])

/-- Python's `str` of a list of strings, e.g. `str(["a","b"]) = "['a', 'b']"`. -/
def pyStrList (ps : List (List Char)) : List Char :=
  '[' :: (pyJoin (ls ", ") (ps.map pyReprStr) ++ [']'])

/-- `c.values()` of a check-in dict, each value passed through `str`:
the keys are inserted in the order `id`, `type`, `priorities`, `created_at`. -/
def checkInValues (c : CheckInRec) : List (List Char) :=
  [c.id, c.type.toList, pyStrList c.priorities, c.created_at]

/-- `_analyze_task_completion`: completed fraction, `0.0` for no tasks. -/
def _analyze_task_completion (tasks : List TaskRec) : ℚ :=
  if tasks.isEmpty then 0
  else (tasks.countP (fun t => t.status == "done") : ℚ) / (tasks.length : ℚ)

/-- The three derived engagement metrics. -/
structure Engagement where
  engagement_score : ℚ
  check_in_adherence : ℚ
  journal_frequency : ℚ
deriving DecidableEq

/-- `_analyze_user_engagement`: fixed 7-day window, two expected check-ins
per day, journal-frequency term capped at 1 before weighting. -/
def _analyze_user_engagement (check_ins : List CheckInRec)
    (journal_entries : List JournalRec) : Engagement :=
  let expected_check_ins : ℚ := 14
  let actual_check_ins : ℚ := check_ins.length
  let journal_frequency : ℚ := (journal_entries.length : ℚ) / 7
  { engagement_score :=
      (actual_check_ins / expected_check_ins) * 0.7 + min journal_frequency 1 * 0.3,
    check_in_adherence := actual_check_ins / expected_check_ins,
    journal_frequency := journal_frequency }

/-- Mood analysis result. -/
structure MoodPatterns where
  trend : String
  stress_level : String
deriving DecidableEq

/-- Entries whose (defaulted) mood is in {happy, productive, energetic}. -/
def positiveMoodCount (je : List JournalRec) : Nat :=
  je.countP (fun e =>
    (["happy", "productive", "energetic"] : List String).contains (e.mood.getD "neutral"))

/-- Entries whose (defaulted) mood is in {stressed, frustrated, exhausted}. -/
def negativeMoodCount (je : List JournalRec) : Nat :=
  je.countP (fun e =>
    (["stressed", "frustrated", "exhausted"] : List String).contains (e.mood.getD "neutral"))

/-- Entries whose lower-cased content contains a stress keyword. -/
def stressIndicatorCount (je : List JournalRec) : Nat :=
  je.countP (fun e =>
    (["stress", "overwhelm", "anxiety", "tired"] : List String).any
      (fun w => containsSub (lower e.content) (ls w)))

/-- `_analyze_mood_patterns`: defined default for no entries; otherwise a
positive-first trend decision and a sequential two-threshold stress level. -/
def _analyze_mood_patterns (journal_entries : List JournalRec) : MoodPatterns :=
  if journal_entries.isEmpty then { trend := "neutral", stress_level := "moderate" }
  else
    let n : ℚ := journal_entries.length
    let trend :=
      if (positiveMoodCount journal_entries : ℚ) > n * 0.6 then "positive"
      else if (negativeMoodCount journal_entries : ℚ) > n * 0.4 then "negative"
      else "neutral"
    let stress0 := "low"
    let stress1 :=
      if (stressIndicatorCount journal_entries : ℚ) > n * 0.3 then "moderate" else stress0
    let stress2 :=
      if (stressIndicatorCount journal_entries : ℚ) > n * 0.6 then "high" else stress1
    { trend := trend, stress_level := stress2 }

/-- One category's effectiveness report entry. -/
structure EffEntry where
  current_score : ℚ
  issues : List String
deriving DecidableEq

/-- The effectiveness report: one optional entry per prompt category
(a category with no applicable records is omitted, i.e. `none`). -/
structure Effectiveness where
  morning_prompt : Option EffEntry
  evening_prompt : Option EffEntry
  task_breakdown_prompt : Option EffEntry
deriving DecidableEq

/-- Morning check-ins of the context. -/
def morningOf (ctx : RecentContext) : List CheckInRec :=
  ctx.check_ins.filter (fun c => c.type == "morning")

/-- Evening check-ins of the context. -/
def eveningOf (ctx : RecentContext) : List CheckInRec :=
  ctx.check_ins.filter (fun c => c.type == "evening")

/-- Morning check-ins with a priority matching "unclear" or "need to"
(case-insensitively). -/
def unclearCount (ms : List CheckInRec) : Nat :=
  ms.countP (fun c => c.priorities.any (fun p =>
    containsSub (lower p) (ls "unclear") || containsSub (lower p) (ls "need to")))

/-- Check-ins with falsy (empty) priorities. -/
def noPriorityCount (ms : List CheckInRec) : Nat :=
  ms.countP (fun c => c.priorities.isEmpty)

/-- Evening check-ins with fewer than two priorities. -/
def shallowCount (es : List CheckInRec) : Nat :=
  es.countP (fun c => c.priorities.length < 2)

/-- Evening check-ins none of whose stringified dict values contains
"completed" (case-insensitively). -/
def noProgressCount (es : List CheckInRec) : Nat :=
  es.countP (fun c =>
    !(checkInValues c).any (fun v => containsSub (lower v) (ls "completed")))

/-- Tasks not done that have at least one subtask. -/
def incompleteBreakdownCount (ts : List TaskRec) : Nat :=
  ts.countP (fun t => t.status != "done" && !t.subtasks.isEmpty)

/-- Tasks with a subtask matching "todo" or "need to" (case-insensitively). -/
def vagueSubtaskCount (ts : List TaskRec) : Nat :=
  ts.countP (fun t => t.subtasks.any (fun s =>
    containsSub (lower s) (ls "todo") || containsSub (lower s) (ls "need to")))

/-- `_analyze_prompt_effectiveness`: per category, start at score 1.0, run
each heuristic (penalty subtracted and issue appended when the trigger
fraction exceeds its threshold), clamp at 0.0, omit categories with no
applicable records. -/
def _analyze_prompt_effectiveness (ctx : RecentContext) : Effectiveness :=
  let morning := morningOf ctx
  let morningEntry : Option EffEntry :=
    if morning.isEmpty then none
    else
      let p0 : ℚ × List String := (1.0, [])
      let p1 :=
        if (unclearCount morning : ℚ) / (morning.length : ℚ) > 0.3 then
          (p0.1 - 0.2, p0.2 ++ ["Tasks often lack clarity"])
        else p0
      let p2 :=
        if (noPriorityCount morning : ℚ) / (morning.length : ℚ) > 0.2 then
          (p1.1 - 0.2, p1.2 ++ ["Priorities not consistently set"])
        else p1
      some { current_score := max 0.0 p2.1, issues := p2.2 }
  let evening := eveningOf ctx
  let eveningEntry : Option EffEntry :=
    if evening.isEmpty then none
    else
      let p0 : ℚ × List String := (1.0, [])
      let p1 :=
        if (shallowCount evening : ℚ) / (evening.length : ℚ) > 0.3 then
          (p0.1 - 0.2, p0.2 ++ ["Reflections lack depth"])
        else p0
      let p2 :=
        if (noProgressCount evening : ℚ) / (evening.length : ℚ) > 0.2 then
          (p1.1 - 0.2, p1.2 ++ ["Progress not consistently tracked"])
        else p1
      some { current_score := max 0.0 p2.1, issues := p2.2 }
  let tasks := ctx.tasks
  let taskEntry : Option EffEntry :=
    if tasks.isEmpty then none
    else
      let p0 : ℚ × List String := (1.0, [])
      let p1 :=
        if (incompleteBreakdownCount tasks : ℚ) / (tasks.length : ℚ) > 0.4 then
          (p0.1 - 0.3, p0.2 ++ ["Task breakdowns not leading to completion"])
        else p0
      let p2 :=
        if (vagueSubtaskCount tasks : ℚ) / (tasks.length : ℚ) > 0.3 then
          (p1.1 - 0.2, p1.2 ++ ["Subtasks often lack specificity"])
        else p1
      some { current_score := max 0.0 p2.1, issues := p2.2 }
  { morning_prompt := morningEntry, evening_prompt := eveningEntry,
    task_breakdown_prompt := taskEntry }

/-- The coach's mutable style configuration. -/
structure CoachingStyle where
  tone : String
  detail_level : String
  focus_areas : List String
  check_in_frequency : String
  reminder_intensity : String
deriving DecidableEq

/-- The style the coach is constructed with. -/
def defaultCoachingStyle : CoachingStyle :=
  { tone := "assertive", detail_level := "balanced",
    focus_areas := ["task_completion", "time_management", "goal_tracking"],
    check_in_frequency := "twice_daily", reminder_intensity := "moderate" }

/-- The partial-update mapping `_generate_coaching_adaptations` returns:
only changed keys are present (`none` = key omitted). -/
structure Adaptations where
  tone : Option String
  detail_level : Option String
  focus_areas : Option (List String)
  reminder_intensity : Option String
  prompt_changes : Option Effectiveness
deriving DecidableEq

/-- `_generate_coaching_adaptations`: independent rules mapping the three
analysis results to style deltas. -/
def _generate_coaching_adaptations (task_completion_rate : ℚ)
    (eng : Engagement) (mood : MoodPatterns) : Adaptations :=
  { tone :=
      if mood.stress_level = "high" then some "supportive"
      else if task_completion_rate < 0.5 ∧ mood.trend ≠ "negative" then some "strict"
      else none,
    detail_level :=
      if eng.engagement_score < 0.5 then some "minimal"
      else if eng.engagement_score > 0.8 then some "detailed"
      else none,
    focus_areas :=
      let fa :=
        (if task_completion_rate < 0.7 then ["task_completion"] else []) ++
        (if eng.check_in_adherence < 0.7 then ["consistency"] else []) ++
        (if mood.stress_level ∈ (["moderate", "high"] : List String) then
          ["stress_management"] else [])
      if fa.isEmpty then none else some fa,
    reminder_intensity :=
      if eng.check_in_adherence < 0.5 then some "strong"
      else if eng.check_in_adherence > 0.9 then some "gentle"
      else none,
    prompt_changes := none }

/-- Python truthiness of the effectiveness dict (`if prompt_changes:`). -/
def effNonempty (e : Effectiveness) : Bool :=
  e.morning_prompt.isSome || e.evening_prompt.isSome || e.task_breakdown_prompt.isSome

/-- The `metrics` sub-dictionary of a reflection. -/
structure ReflectionMetrics where
  task_completion_rate : ℚ
  engagement_score : ℚ
  mood_trend : String
deriving DecidableEq

/-- One reflection snapshot produced by `reflect_on_coaching`. -/
structure Reflection where
  timestamp : String
  metrics : ReflectionMetrics
  proposed_adaptations : Adaptations
deriving DecidableEq

/-- The coach's in-process mutable state relevant to reflections. -/
structure CoachState where
  coaching_style : CoachingStyle
  last_reflection : Option Reflection
  adaptation_history : List Reflection
deriving DecidableEq

/-- The state right after `__init__`. -/
def initialCoachState : CoachState :=
  { coaching_style := defaultCoachingStyle, last_reflection := none,
    adaptation_history := [] }

/-- `reflect_on_coaching`: run the analyses over the recent context, build
the reflection, store it as `last_reflection` and append it (without any
truncation) to `adaptation_history`. -/
def reflect_on_coaching (st : CoachState) (ctx : RecentContext) (ts : String) :
    Reflection × CoachState :=
  let task_completion_rate := _analyze_task_completion ctx.tasks
  let eng := _analyze_user_engagement ctx.check_ins ctx.journal_entries
  let mood := _analyze_mood_patterns ctx.journal_entries
  let ad := _generate_coaching_adaptations task_completion_rate eng mood
  let pc := _analyze_prompt_effectiveness ctx
  let ad2 := if effNonempty pc then { ad with prompt_changes := some pc } else ad
  let r : Reflection :=
    { timestamp := ts,
      metrics :=
        { task_completion_rate := task_completion_rate,
          engagement_score := eng.engagement_score,
          mood_trend := mood.trend },
      proposed_adaptations := ad2 }
  (r, { st with
        last_reflection := some r,
        adaptation_history := st.adaptation_history ++ [r] })

/-- What `get_coaching_context` returns. -/
structure CoachingContext where
  coaching_style : CoachingStyle
  last_reflection : Option Reflection
  adaptation_history : List Reflection
deriving DecidableEq

/-- `get_coaching_context`: style, last reflection, and the Python slice
`adaptation_history[-5:]` (the most recent 5 entries, fewer if the history
is shorter). -/
def get_coaching_context (st : CoachState) : CoachingContext :=
  { coaching_style := st.coaching_style,
    last_reflection := st.last_reflection,
    adaptation_history :=
      st.adaptation_history.drop (st.adaptation_history.length - 5) }

/-- `reflect_on_coaching` appends exactly one entry to the history. -/
theorem reflect_history_snoc (st : CoachState) (ctx : RecentContext) (ts : String) :
    ((reflect_on_coaching st ctx ts).2).adaptation_history =
      st.adaptation_history ++ [(reflect_on_coaching st ctx ts).1] := rfl

end ProductivityCoach

namespace ContextManager

/-- One assistant-memory item: `add_to_assistant_memory` stores the caller's
dictionary with a `"timestamp"` key prepended. -/
structure MemoryItem where
  timestamp : String
  payload : List (String × String)
deriving DecidableEq

/-- `add_to_assistant_memory`: append the stamped item, then keep only the
last 100 items (`memory[-100:]`). -/
def add_to_assistant_memory (memory : List MemoryItem) (ts : String)
    (payload : List (String × String)) : List MemoryItem :=
  let m := memory ++ [{ timestamp := ts, payload := payload }]
  m.drop (m.length - 100)

end ContextManager

namespace PromptBuilder

/-- C8 evaluated at the failing input: because the inner loop
`for issue, changes in improvements["suggested_changes"].items()` shadows
the `changes` parameter, the stored `"changes"` field is the last iterated
`{"add": [], "remove": []}` dictionary, not the change-set argument. -/
theorem update_changes_shadowed :
    update_system_prompt samplePV "t3" sampleShadowCS =
      .ok (samplePV ++ [(3,
        { prompt := ls "beta", timestamp := "t3",
          changes := .suggested { add := [], remove := [] } })]) ∧
    Changes.suggested { add := [], remove := [] } ≠ Changes.changeSet sampleShadowCS := by
  constructor
  · rfl
  · decide

end PromptBuilder

namespace ProductivityCoach

/-- `a/n > c ↔ a > n*c` for positive `n`: bridges the claim's
"fraction exceeds threshold" phrasing and the source's `count > len * c`. -/
theorem frac_gt_iff (a c n : ℚ) (hn : 0 < n) : a / n > c ↔ a > n * c := by
  rw [gt_iff_lt, gt_iff_lt, lt_div_iff₀ hn, mul_comm]

/-- A morning check-in with the given priorities, used by the C3 scenario. -/
def scenarioCheckIn (ps : List (List Char)) : CheckInRec :=
  { id := ls "c1", type := "morning", priorities := ps,
    created_at := ls "2024-01-01T08:00:00" }

/-- The C3 scenario context: 10 morning check-ins, 4 whose priority contains
"need to", 3 with empty priorities, 3 ordinary. -/
def scenarioMorningCtx : RecentContext :=
  { tasks := [], journal_entries := [],
    check_ins :=
      List.replicate 4 (scenarioCheckIn [ls "need to finish the report"]) ++
      List.replicate 3 (scenarioCheckIn []) ++
      List.replicate 3 (scenarioCheckIn [ls "write chapter"]) }

/-- A check-in whose field values are irrelevant (only counts matter). -/
def dummyCheckIn : CheckInRec :=
  { id := ls "c", type := "morning", priorities := [ls "plan"], created_at := ls "d" }

/-- A journal entry whose field values are irrelevant (only counts matter). -/
def dummyJournal : JournalRec :=
  { id := "j", type := "daily", content := ls "note", mood := some "happy",
    created_at := "d" }

/-- A journal entry with a positive mood and stress-free content. -/
def sampleHappyJournal : JournalRec :=
  { id := "j1", type := "daily", content := ls "all good", mood := some "happy",
    created_at := "d" }

end ProductivityCoach

namespace ProductivityCoach

/-- C6: `_analyze_mood_patterns` returns exactly {neutral, moderate} for an
empty entry sequence; otherwise the trend is "positive" when the
positive-mood fraction exceeds 0.6 (checked first), else "negative" when
the negative-mood fraction exceeds 0.4, else "neutral", and the stress
level is "high" above 0.6, "moderate" above 0.3, else "low", based on the
stress-keyword content fraction. -/
theorem analyze_mood_patterns_spec (je : List JournalRec) :
    _analyze_mood_patterns [] = { trend := "neutral", stress_level := "moderate" } ∧
    (je ≠ [] →
      _analyze_mood_patterns je =
        { trend :=
            if (positiveMoodCount je : ℚ) / (je.length : ℚ) > 0.6 then "positive"
            else if (negativeMoodCount je : ℚ) / (je.length : ℚ) > 0.4 then "negative"
            else "neutral",
          stress_level :=
            if (stressIndicatorCount je : ℚ) / (je.length : ℚ) > 0.6 then "high"
            else if (stressIndicatorCount je : ℚ) / (je.length : ℚ) > 0.3 then "moderate"
            else "low" }) := by
  constructor
  · rfl
  · intro h
    have hn : (0 : ℚ) < (je.length : ℚ) := by
      have := List.length_pos.mpr h
      exact_mod_cast this
    have hne : je.isEmpty = false := by
      cases je with
      | nil => exact absurd rfl h
      | cons _ _ => rfl
    simp only [_analyze_mood_patterns, hne, Bool.false_eq_true, if_false]
    congr 1
    · exact (if_congr (frac_gt_iff _ _ _ hn) rfl
        (if_congr (frac_gt_iff _ _ _ hn) rfl rfl)).symm
    · exact (if_congr (frac_gt_iff _ _ _ hn) rfl
        (if_congr (frac_gt_iff _ _ _ hn) rfl rfl)).symm

/-- Witness for C6 at a single happy, stress-free journal entry. -/
theorem analyze_mood_patterns_witness :
    [sampleHappyJournal] ≠ [] ∧
    _analyze_mood_patterns [sampleHappyJournal] =
      { trend := "positive", stress_level := "low" } := by
  constructor
  · decide
  · have h := (analyze_mood_patterns_spec [sampleHappyJournal]).2 (by decide)
    have hp : positiveMoodCount [sampleHappyJournal] = 1 := rfl
    have hng : negativeMoodCount [sampleHappyJournal] = 0 := rfl
    have hs : stressIndicatorCount [sampleHappyJournal] = 0 := rfl
    rw [h, hp, hng, hs]
    norm_num

/-- C7: `_analyze_user_engagement` computes
`engagement_score = (actual / (2*7)) * 0.7 + min(journal_per_day, 1) * 0.3`
and `check_in_adherence = actual / (2*7)`; only the journal term is capped,
so the score exceeds 1 when adherence does (e.g. 30 check-ins); 7 check-ins
and 7 journal entries give exactly 0.65 and adherence 0.5. -/
theorem analyze_user_engagement_spec (ci : List CheckInRec) (je : List JournalRec) :
    ((_analyze_user_engagement ci je).engagement_score =
        ((ci.length : ℚ) / (2 * 7)) * 0.7 + min ((je.length : ℚ) / 7) 1 * 0.3 ∧
      (_analyze_user_engagement ci je).check_in_adherence = (ci.length : ℚ) / (2 * 7)) ∧
    _analyze_user_engagement (List.replicate 7 dummyCheckIn)
        (List.replicate 7 dummyJournal) =
      { engagement_score := 0.65, check_in_adherence := 0.5, journal_frequency := 1 } ∧
    (_analyze_user_engagement (List.replicate 30 dummyCheckIn) []).engagement_score > 1 := by
  refine ⟨⟨?_, ?_⟩, ?_, ?_⟩
  · norm_num [_analyze_user_engagement]
  · norm_num [_analyze_user_engagement]
  · simp only [_analyze_user_engagement, List.length_replicate]
    norm_num [Engagement.mk.injEq, min_def]
  · simp only [_analyze_user_engagement, List.length_replicate, List.length_nil]
    norm_num [min_def]

end ProductivityCoach

namespace ProductivityCoach

/-- C3: per category, `_analyze_prompt_effectiveness` starts at 1.0,
subtracts the fixed penalty and appends the issue label for each heuristic
whose trigger fraction exceeds its threshold (penalties compound), clamps
at 0.0, and omits categories with zero applicable records; the concrete
10-morning-check-in scenario (4 "need to", 3 empty priorities) yields both
morning issues and score 0.6. -/
theorem analyze_prompt_effectiveness_spec (ctx : RecentContext) :
    ((_analyze_prompt_effectiveness ctx).morning_prompt =
      if (morningOf ctx).isEmpty then none
      else some
        { current_score := max 0 (1
            - (if (unclearCount (morningOf ctx) : ℚ) / ((morningOf ctx).length : ℚ) > 0.3
                then (0.2 : ℚ) else 0)
            - (if (noPriorityCount (morningOf ctx) : ℚ) / ((morningOf ctx).length : ℚ) > 0.2
                then (0.2 : ℚ) else 0)),
          issues :=
            (if (unclearCount (morningOf ctx) : ℚ) / ((morningOf ctx).length : ℚ) > 0.3
              then ["Tasks often lack clarity"] else []) ++
            (if (noPriorityCount (morningOf ctx) : ℚ) / ((morningOf ctx).length : ℚ) > 0.2
              then ["Priorities not consistently set"] else []) }) ∧
    ((_analyze_prompt_effectiveness ctx).evening_prompt =
      if (eveningOf ctx).isEmpty then none
      else some
        { current_score := max 0 (1
            - (if (shallowCount (eveningOf ctx) : ℚ) / ((eveningOf ctx).length : ℚ) > 0.3
                then (0.2 : ℚ) else 0)
            - (if (noProgressCount (eveningOf ctx) : ℚ) / ((eveningOf ctx).length : ℚ) > 0.2
                then (0.2 : ℚ) else 0)),
          issues :=
            (if (shallowCount (eveningOf ctx) : ℚ) / ((eveningOf ctx).length : ℚ) > 0.3
              then ["Reflections lack depth"] else []) ++
            (if (noProgressCount (eveningOf ctx) : ℚ) / ((eveningOf ctx).length : ℚ) > 0.2
              then ["Progress not consistently tracked"] else []) }) ∧
    ((_analyze_prompt_effectiveness ctx).task_breakdown_prompt =
      if ctx.tasks.isEmpty then none
      else some
        { current_score := max 0 (1
            - (if (incompleteBreakdownCount ctx.tasks : ℚ) / (ctx.tasks.length : ℚ) > 0.4
                then (0.3 : ℚ) else 0)
            - (if (vagueSubtaskCount ctx.tasks : ℚ) / (ctx.tasks.length : ℚ) > 0.3
                then (0.2 : ℚ) else 0)),
          issues :=
            (if (incompleteBreakdownCount ctx.tasks : ℚ) / (ctx.tasks.length : ℚ) > 0.4
              then ["Task breakdowns not leading to completion"] else []) ++
            (if (vagueSubtaskCount ctx.tasks : ℚ) / (ctx.tasks.length : ℚ) > 0.3
              then ["Subtasks often lack specificity"] else []) }) ∧
    (_analyze_prompt_effectiveness scenarioMorningCtx).morning_prompt =
      some { current_score := 0.6,
             issues := ["Tasks often lack clarity", "Priorities not consistently set"] } := by
  refine ⟨?_, ?_, ?_, ?_⟩
  · simp only [_analyze_prompt_effectiveness]
    by_cases he : (morningOf ctx).isEmpty = true
    · simp [he]
    · simp only [he, Bool.false_eq_true, if_false]
      split_ifs <;> norm_num
  · simp only [_analyze_prompt_effectiveness]
    by_cases he : (eveningOf ctx).isEmpty = true
    · simp [he]
    · simp only [he, Bool.false_eq_true, if_false]
      split_ifs <;> norm_num
  · simp only [_analyze_prompt_effectiveness]
    by_cases he : ctx.tasks.isEmpty = true
    · simp [he]
    · simp only [he, Bool.false_eq_true, if_false]
      split_ifs <;> norm_num
  · have hm2 : (morningOf scenarioMorningCtx).isEmpty = false := rfl
    have hml : (morningOf scenarioMorningCtx).length = 10 := rfl
    have hu : unclearCount (morningOf scenarioMorningCtx) = 4 := rfl
    have hp : noPriorityCount (morningOf scenarioMorningCtx) = 3 := rfl
    simp only [_analyze_prompt_effectiveness, hm2, hml, hu, hp]
    norm_num

end ProductivityCoach

namespace ProductivityCoach

/-- An empty recent context, used to iterate reflections. -/
def emptyRecentContext : RecentContext :=
  { tasks := [], journal_entries := [], check_ins := [] }

/-- The coach state after `n` successive `reflect_on_coaching` calls from
the freshly constructed state. -/
def reflectTimes : Nat → CoachState
  | 0 => initialCoachState
  | n + 1 => (reflect_on_coaching (reflectTimes n) emptyRecentContext "t").2

/-- Counterexample to C9 as stated: after six reflections the in-process
`adaptation_history` holds six entries — the stored history is unbounded;
only `get_coaching_context`'s view is cut to the last 5. -/
theorem adaptation_history_unbounded :
    (reflectTimes 6).adaptation_history.length = 6 ∧
    ¬ (reflectTimes 6).adaptation_history.length ≤ 5 := by
  have hlen : ∀ n, (reflectTimes n).adaptation_history.length = n := by
    intro n
    induction n with
    | zero => rfl
    | succ k ih =>
      have h := reflect_history_snoc (reflectTimes k) emptyRecentContext "t"
      simp only [reflectTimes, h, List.length_append, ih, List.length_cons,
        List.length_nil]
  refine ⟨hlen 6, ?_⟩
  rw [hlen 6]
  omega

/-- C9 (amended): `reflect_on_coaching` keeps the new reflection as
`last_reflection` and appends it to the (unbounded) in-process
`adaptation_history`; `get_coaching_context` exposes only the most recent 5
entries of that history (a suffix of length at most 5). -/
theorem reflection_retention (st : CoachState) (ctx : RecentContext) (ts : String) :
    ((reflect_on_coaching st ctx ts).2).last_reflection =
      some (reflect_on_coaching st ctx ts).1 ∧
    ((reflect_on_coaching st ctx ts).2).adaptation_history =
      st.adaptation_history ++ [(reflect_on_coaching st ctx ts).1] ∧
    (get_coaching_context ((reflect_on_coaching st ctx ts).2)).last_reflection =
      some (reflect_on_coaching st ctx ts).1 ∧
    (get_coaching_context ((reflect_on_coaching st ctx ts).2)).adaptation_history.length ≤ 5 ∧
    (get_coaching_context ((reflect_on_coaching st ctx ts).2)).adaptation_history <:+
      ((reflect_on_coaching st ctx ts).2).adaptation_history := by
  refine ⟨rfl, rfl, rfl, ?_, ?_⟩
  · simp only [get_coaching_context, List.length_drop]
    omega
  · exact List.drop_suffix _ _

end ProductivityCoach

namespace ContextManager

/-- C10: after every `add_to_assistant_memory` call the memory holds at most
100 items, exactly `min (old + 1) 100` of them, and they are a suffix of
the old memory extended with the stamped new item — i.e. the most recently
added items in insertion order, older ones dropped from the front.  This is
the only operation touching the assistant memory list. -/
theorem memory_bounded (memory : List MemoryItem) (ts : String)
    (payload : List (String × String)) :
    (add_to_assistant_memory memory ts payload).length ≤ 100 ∧
    (add_to_assistant_memory memory ts payload).length = min (memory.length + 1) 100 ∧
    add_to_assistant_memory memory ts payload <:+
      memory ++ [{ timestamp := ts, payload := payload }] := by
  unfold add_to_assistant_memory
  refine ⟨?_, ?_, List.drop_suffix _ _⟩
  · simp only [List.length_drop, List.length_append, List.length_cons, List.length_nil]
    omega
  · simp only [List.length_drop, List.length_append, List.length_cons, List.length_nil]
    omega

end ContextManager
